import Mathlib

/-!
Verification of `pytext/metric_reporters/classification_metric_reporter.py`.

Shallow embedding conventions:
* `torch.Tensor` score rows are `List Rat`; label indices are `Nat`.
* Python dictionaries keyed by label name are association lists
  `List (String × _)` with first-match lookup.
* Fallible Python code (assertions, `KeyError`, `ValueError`) returns
  `Except PyError _`.
* `label_names[i]` is modelled with `List.getD _ i ""`; the data-model
  invariant (every index a valid offset into the label catalogue) makes the
  default unreachable in the states the reporter produces.
-/

/-- Python exception kinds raised by the embedded code paths. -/
inductive PyError where
  | assertionError
  | keyError
  | valueError
deriving DecidableEq, Repr

/-- Modelled from the spec: `safe_division` (imported from `pytext.metrics`,
not in src): zero-denominator division is defined as zero rather than
raising. -/
def safe_division (n d : Rat) : Rat :=
  if d = 0 then 0 else n / d

/-- Confusion outcomes accepted by the per-label confusion tracker. -/
inductive Outcome where
  | TP
  | FP
  | FN
deriving DecidableEq, Repr

/-- Per-label TP/FP/FN counters. -/
structure Confusion where
  TP : Nat
  FP : Nat
  FN : Nat
deriving DecidableEq, Repr

def Confusion.zero : Confusion := ⟨0, 0, 0⟩

/-- Increment one counter of a `Confusion` by `n`. -/
def Confusion.bump (c : Confusion) (o : Outcome) (n : Nat) : Confusion :=
  match o with
  | .TP => { c with TP := c.TP + n }
  | .FP => { c with FP := c.FP + n }
  | .FN => { c with FN := c.FN + n }

/-- Modelled from the spec: `PerLabelConfusions`
(`pytext.metrics.intent_slot_metrics`, not in src) maintains incremental
confusion counts keyed by label name; unseen labels are implicitly
initialized to zero on first touch. Represented as an association list. -/
abbrev PLC := List (String × Confusion)

def PLC.empty : PLC := []

/-- Modelled from the spec: `PerLabelConfusions.update(label, outcome, count)`
increments the counter for that label/outcome pair, initializing the label's
entry to zero counts on first touch. -/
def PLC.update (m : PLC) (label : String) (o : Outcome) (n : Nat) : PLC :=
  match m with
  | [] => [(label, Confusion.zero.bump o n)]
  | (l, c) :: rest =>
      if l = label then (l, c.bump o n) :: rest
      else (l, c) :: PLC.update rest label o n

/-- Dictionary read with implicit-zero semantics for untouched labels. -/
def PLC.getConf (m : PLC) (label : String) : Confusion :=
  match m with
  | [] => Confusion.zero
  | (l, c) :: rest => if l = label then c else PLC.getConf rest label

/-- Per-label precision/recall/F1 triple (`rcl` stands for recall, which is
a reserved command name here). -/
structure PRF1 where
  precision : Rat
  rcl : Rat
  f1 : Rat
deriving DecidableEq, Repr

/-- Modelled from the spec: per-label precision = TP/(TP+FP) with 0 on a
zero denominator, recall analogous, F1 the harmonic mean (0 when both are
0). -/
def PRF1ofConfusion (c : Confusion) : PRF1 :=
  let p := safe_division (c.TP : Rat) ((c.TP : Rat) + (c.FP : Rat))
  let r := safe_division (c.TP : Rat) ((c.TP : Rat) + (c.FN : Rat))
  let f := if p + r = 0 then 0 else 2 * p * r / (p + r)
  ⟨p, r, f⟩

/-- Macro-PRF1 report: per-label scores keyed by label name plus the macro
aggregate. -/
structure MacroPRF1Metrics where
  per_label_scores : List (String × PRF1)
  macro_scores : PRF1
deriving DecidableEq, Repr

/-- Modelled from the spec: `PerLabelConfusions.compute_metrics` produces
per-label PRF1 scores for every touched label and macro scores as their
unweighted mean. -/
def PLC.compute_metrics (m : PLC) : MacroPRF1Metrics :=
  let per := m.map (fun lc => (lc.1, PRF1ofConfusion lc.2))
  let n : Rat := (per.length : Rat)
  let mp := safe_division ((per.map (fun x => x.2.precision)).foldl (· + ·) 0) n
  let mr := safe_division ((per.map (fun x => x.2.rcl)).foldl (· + ·) 0) n
  let mf := safe_division ((per.map (fun x => x.2.f1)).foldl (· + ·) 0) n
  ⟨per, ⟨mp, mr, mf⟩⟩

/-- Modelled from the spec: per-label soft scores (average precision,
ROC-AUC), both optional since they may be absent from a report. -/
structure SoftScores where
  average_precision : Option Rat
  roc_auc : Option Rat
deriving DecidableEq, Repr

/-- The `ClassificationMetrics` report (`pytext.metrics`, not in src);
fields follow the spec's data model: accuracy, macro-PRF1 metrics, optional
per-label soft scores keyed by label name, optional MCC, optional overall
ROC-AUC, loss. -/
structure ClassificationMetrics where
  accuracy : Rat
  macro_prf1_metrics : MacroPRF1Metrics
  per_label_soft_scores : List (String × SoftScores)
  mcc : Option Rat
  roc_auc : Option Rat
  loss : Rat
deriving DecidableEq, Repr

/-- `LabelTopKPrediction` (source field order: scores, topk indices,
expected label index). -/
structure LabelTopKPrediction where
  scores : List Rat
  topk : List Nat
  label : Nat
deriving DecidableEq, Repr

/-- The loop's `predicted_labels = list(map(label_names.__getitem__,
topk))` (src line 409). -/
def predictedNames (label_names : List String) (p : LabelTopKPrediction) :
    List String :=
  p.topk.map (fun i => label_names.getD i "")

/-- The loop's `expected_label = label_names[label]` (src line 410). -/
def expectedName (label_names : List String) (p : LabelTopKPrediction) :
    String :=
  label_names.getD p.label ""

/-- The loop's hit test `expected_label in predicted_labels` (src line
412). -/
def isTopkHit (label_names : List String) (p : LabelTopKPrediction) : Bool :=
  decide (expectedName label_names p ∈ predictedNames label_names p)

/-- `predicted_labels[0]` (src line 417), the highest-scoring prediction's
name; `List.headI` models the `[0]` access (Python would raise `IndexError`
on an empty top-k list, a state the reporter never produces for
`topk ≥ 1`). -/
def firstPredictedName (label_names : List String)
    (p : LabelTopKPrediction) : String :=
  (predictedNames label_names p).headI

/-- One iteration of the loop in `compute_topk_classification_metrics`
(src lines 408-417): a membership hit adds one TP on the expected label; a
miss adds one FN on the expected label and one FP on `predicted_labels[0]`. -/
def topkStep (label_names : List String) (acc : Nat × PLC)
    (p : LabelTopKPrediction) : Nat × PLC :=
  if expectedName label_names p ∈ predictedNames label_names p then
    (acc.1 + 1, acc.2.update (expectedName label_names p) .TP 1)
  else
    (acc.1,
      (acc.2.update (expectedName label_names p) .FN 1).update
        (predictedNames label_names p).headI .FP 1)

/-- The accumulation loop of `compute_topk_classification_metrics`:
`num_correct` and `per_label_confusions` after folding over all
predictions. -/
def topkCounts (label_names : List String)
    (predictions : List LabelTopKPrediction) : Nat × PLC :=
  predictions.foldl (topkStep label_names) (0, PLC.empty)

/-- `compute_topk_classification_metrics` (src lines 388-430). -/
def compute_topk_classification_metrics
    (predictions : List LabelTopKPrediction) (label_names : List String)
    (loss : Rat) : ClassificationMetrics :=
  let c := topkCounts label_names predictions
  { accuracy := safe_division (c.1 : Rat) (predictions.length : Rat)
    macro_prf1_metrics := c.2.compute_metrics
    per_label_soft_scores := []
    mcc := none
    roc_auc := none
    loss := loss }

/-- A padded three-way zip modelling `itertools.zip_longest(a, b, c,
fillvalue=[])`: the result runs to the longest input, with exhausted inputs
yielding the fill value. Python uses one dynamically-typed fill `[]` for all
three slots; in this typed embedding an exhausted slot yields `none`, and
each call site interprets `none` as the Python `[]` fill. -/
def zipLongest3 {α β γ : Type} :
    List α → List β → List γ → List (Option α × Option β × Option γ)
  | [], [], [] => []
  | a :: as, bs, cs =>
      (some a, bs.head?, cs.head?) :: zipLongest3 as bs.tail cs.tail
  | [], b :: bs, cs =>
      (none, some b, cs.head?) :: zipLongest3 [] bs cs.tail
  | [], [], c :: cs =>
      (none, none, some c) :: zipLongest3 [] [] cs

/-- Exact three-way zip modelling Python's `zip(a, b, c)`: truncates to the
shortest input, never pads. -/
def zip3 {α β γ : Type} : List α → List β → List γ → List (α × β × γ)
  | a :: as, b :: bs, c :: cs => (a, b, c) :: zip3 as bs cs
  | _, _, _ => []

/-- `LabelPrediction` (source field order: scores, predicted index, expected
index). The index slots are `Option Nat`: `none` is the `zip_longest`
fill `[]` landing in an index slot, which the reporter's aligned
prediction/target buffers never produce. -/
structure LabelPrediction where
  scores : List Rat
  pred : Option Nat
  expect : Option Nat
deriving DecidableEq, Repr

/-- Accumulation state of `ClassificationMetricReporter` for one evaluation
pass. `π`/`τ` are the per-example prediction/target payload types (`Nat`
indices for the single-label reporter, rows for the multi-label one).
Context buffers (`all_context`, src lines 175-180) and the output-channel
configuration are omitted: no claim concerns them. -/
structure RState (π τ : Type) where
  is_memory_efficient : Bool
  n_batches : Nat
  all_preds : List π
  all_targets : List τ
  all_scores : List (List Rat)
  all_loss : List Rat
  batch_size : List Nat

/-- Fresh accumulation state at the start of a pass (`_reset`). -/
def RState.init (π τ : Type) (mem : Bool) : RState π τ :=
  ⟨mem, 0, [], [], [], [], []⟩

/-- Modelled from the spec: `MetricReporter.aggregate_data` (base class
`metric_reporter.py`, not in src) appends each example's entry of the batch
into the accumulation buffer, preserving order; `aggregate_preds`,
`aggregate_targets` and `aggregate_scores` all delegate to it. -/
def aggregate_data {α : Type} (all_data : List α) (new_batch : List α) : List α :=
  all_data ++ new_batch

/-- The model-input argument `m_input`: either a materialized
`Tuple[torch.Tensor, ...]` or a lazily-produced `Generator` of tensors.
Tensors are modelled as their list of rows. -/
inductive ModelInput where
  | generator (items : List (List Rat))
  | tensors (items : List (List Rat))
deriving DecidableEq, Repr

/-- `itertools.tee(iterable, n)` returns a tuple of `n` independent
iterators over the iterable, consuming nothing up front; modelled as the
`n`-element tuple of (copies of) the remaining item stream. -/
def tee {α : Type} (iterable : List α) (n : Nat) : List (List α) :=
  List.replicate n iterable

/-- The value appended to `self.batch_size` (src lines 185-191). Generator
branch: `first = tee(m_input, 1); self.batch_size.append(len(first))` —
`len(first)` is the length of the 1-tuple of iterators returned by `tee`,
i.e. always 1. Tuple branch: `len(m_input[0])`; `List.headI` models the
`[0]` access (Python raises `IndexError` on an empty tuple, outside the
claims' scope). -/
def batchSizeEntry (m_input : ModelInput) : Nat :=
  match m_input with
  | .generator items => (tee items 1).length
  | .tensors items => items.headI.length

/-- `ClassificationMetricReporter.add_batch_stats` (src lines 146-191):
appends predictions and targets, appends scores only when
`is_memory_efficient` is off, records the loss when present, and appends
the derived batch size. -/
def ClassificationMetricReporter.add_batch_stats {π τ : Type}
    (st : RState π τ) (n_batches : Nat) (preds : List π) (targets : List τ)
    (scores : List (List Rat)) (loss : Option Rat) (m_input : ModelInput) :
    RState π τ :=
  { st with
    n_batches := n_batches
    all_preds := aggregate_data st.all_preds preds
    all_targets := aggregate_data st.all_targets targets
    all_scores :=
      if st.is_memory_efficient then st.all_scores
      else aggregate_data st.all_scores scores
    all_loss :=
      match loss with
      | some l => st.all_loss ++ [l]
      | none => st.all_loss
    batch_size := st.batch_size ++ [batchSizeEntry m_input] }

/-- One batch of arguments to `add_batch_stats` (context omitted, see
`RState`). -/
structure Batch (π τ : Type) where
  n_batches : Nat
  preds : List π
  targets : List τ
  scores : List (List Rat)
  loss : Option Rat
  m_input : ModelInput

/-- A whole evaluation pass: fold `add_batch_stats` over a batch list. -/
def runBatches {π τ : Type} (st : RState π τ) (bs : List (Batch π τ)) :
    RState π τ :=
  bs.foldl
    (fun s b =>
      ClassificationMetricReporter.add_batch_stats s b.n_batches b.preds
        b.targets b.scores b.loss b.m_input)
    st

/-- The `LabelPrediction` list built by
`ClassificationMetricReporter.calculate_metric` (src lines 196-201):
`zip_longest(all_scores, all_preds, all_targets, fillvalue=[])`, the fill
`[]` read as the empty score list in the scores slot. -/
def calculateMetricInput (st : RState Nat Nat) : List LabelPrediction :=
  (zipLongest3 st.all_scores st.all_preds st.all_targets).map
    (fun x => ⟨x.1.getD [], x.2.1, x.2.2⟩)

/-- `LabelListPrediction` (multi-label; source field order: scores,
predicted indicator row, expected index row with `-1` sentinel entries). -/
structure LabelListPrediction where
  scores : List Rat
  pred : List Nat
  expect : List Int
deriving DecidableEq, Repr

/-- The `LabelListPrediction` list built by
`MultiLabelClassificationMetricReporter.calculate_metric` (src lines
258-264): a plain `zip(all_scores, all_preds, all_targets)`. -/
def multiLabelCalculateMetricInput (st : RState (List Nat) (List Int)) :
    List LabelListPrediction :=
  (zip3 st.all_scores st.all_preds st.all_targets).map
    (fun x => ⟨x.1, x.2.1, x.2.2⟩)

/-- Modelled from the spec: `MetricReporter.calculate_loss` (base class,
not in src) is the simple arithmetic mean of the recorded per-batch losses,
not weighted by batch size. -/
def calculate_loss (all_loss : List Rat) : Rat :=
  safe_division (all_loss.foldl (· + ·) 0) (all_loss.length : Rat)

/-- Stable descending insertion of index `i` into an index list already
sorted by descending score: `i` passes `j` only when its score is strictly
greater, so equal scores keep the earlier (lower) index first. -/
def topkInsert (row : List Rat) (i : Nat) : List Nat → List Nat
  | [] => [i]
  | j :: js =>
      if row.getD j 0 < row.getD i 0 then i :: j :: js
      else j :: topkInsert row i js

/-- `torch.topk(row, k)` index output for one score row: the indices of the
`k` largest entries, ordered by descending score, ties broken toward the
lower index (stable selection, as the spec documents). `torch` is an
external library; this models its documented interface. -/
def torchTopkRow (k : Nat) (row : List Rat) : List Nat :=
  ((List.range row.length).foldl (fun acc i => topkInsert row i acc) []).take k

/-- Accumulation state of `TopKClassificationMetricReporter`: the base
state plus `all_topk_preds` (`_reset`, src lines 341-343) and the
configured `topk`. -/
structure TKState where
  base : RState Nat Nat
  all_topk_preds : List (List Nat)
  topk : Nat

/-- `TopKClassificationMetricReporter.aggregate_topkpreds` (src lines
368-371): reduce the batch's score matrix to per-example top-k index lists
and append them. -/
def TKState.aggregate_topkpreds (st : TKState)
    (batch_scores : List (List Rat)) : TKState :=
  { st with
    all_topk_preds :=
      aggregate_data st.all_topk_preds (batch_scores.map (torchTopkRow st.topk)) }

/-- `TopKClassificationMetricReporter.add_batch_stats` (src lines 345-366):
the inherited aggregation followed by `aggregate_topkpreds(scores)`. -/
def TKState.add_batch_stats (st : TKState) (n_batches : Nat)
    (preds targets : List Nat) (scores : List (List Rat)) (loss : Option Rat)
    (m_input : ModelInput) : TKState :=
  let st2 :=
    { st with
      base :=
        ClassificationMetricReporter.add_batch_stats st.base n_batches preds
          targets scores loss m_input }
  st2.aggregate_topkpreds scores

/-- The `LabelTopKPrediction` list built by
`TopKClassificationMetricReporter.calculate_metric` (src lines 376-381):
`zip_longest(all_scores, all_topk_preds, all_targets, fillvalue=[])`. The
scores-slot fill `[]` is the case actually exercised (memory-efficient
mode); a fill in the topk slot is also an empty list in Python; a fill in
the expected-label slot would later make `label_names[label]` raise
`TypeError`, a state the reporter never produces (targets are appended on
every batch), so the `getD 0` default there is arbitrary. -/
def TKState.calculateMetricInput (st : TKState) : List LabelTopKPrediction :=
  (zipLongest3 st.base.all_scores st.all_topk_preds st.base.all_targets).map
    (fun x => ⟨x.1.getD [], x.2.1.getD [], x.2.2.getD 0⟩)

/-- `TopKClassificationMetricReporter.calculate_metric` (src lines
373-385). -/
def TKState.calculate_metric (st : TKState) (label_names : List String) :
    ClassificationMetrics :=
  compute_topk_classification_metrics st.calculateMetricInput label_names
    (calculate_loss st.base.all_loss)

/-- `ComparableClassificationMetric` (src lines 30-39). The `UNKNOWN`
constructor models Python's dynamic typing: the enum-typed config field can
at runtime hold a value that is none of the eight members, which is exactly
the case the source's `else: raise ValueError(...)` branch (src line 247)
handles. -/
inductive ComparableClassificationMetric where
  | ACCURACY
  | ROC_AUC
  | MCC
  | MACRO_F1
  | LABEL_F1
  | LABEL_AVG_PRECISION
  | LABEL_ROC_AUC
  | NEGATIVE_LOSS
  | UNKNOWN (s : String)
deriving DecidableEq, Repr

/-- The configuration fields consulted by `from_config_and_label_names`
(output paths, column names and threshold lists are passed through
unchanged and are omitted). -/
structure Config where
  model_select_metric : ComparableClassificationMetric
  target_label : Option String
  is_memory_efficient : Bool
deriving DecidableEq, Repr

/-- The constructed reporter's configuration fields (channels and
passthrough columns omitted). -/
structure Reporter where
  label_names : List String
  model_select_metric : ComparableClassificationMetric
  target_label : Option String
  is_memory_efficient : Bool
deriving DecidableEq, Repr

/-- First validation of `from_config_and_label_names` (src lines 104-112):
for the per-label selection metrics, `assert config.target_label is not
None` and `assert config.target_label in label_names`. -/
def checkTargetLabel (config : Config) (label_names : List String) :
    Except PyError Unit :=
  if config.model_select_metric = .LABEL_F1 ∨
      config.model_select_metric = .LABEL_AVG_PRECISION ∨
      config.model_select_metric = .LABEL_ROC_AUC then
    match config.target_label with
    | none => .error .assertionError
    | some t => if t ∈ label_names then .ok () else .error .assertionError
  else .ok ()

/-- Second validation of `from_config_and_label_names` (src lines 113-119):
for `ROC_AUC`/`MCC`, `assert len(label_names) == 2`. -/
def checkBinaryLabels (config : Config) (label_names : List String) :
    Except PyError Unit :=
  if config.model_select_metric = .ROC_AUC ∨
      config.model_select_metric = .MCC then
    if label_names.length = 2 then .ok () else .error .assertionError
  else .ok ()

/-- `ClassificationMetricReporter.from_config_and_label_names` (src lines
102-130): run both eager validations, then construct the reporter. -/
def from_config_and_label_names (config : Config)
    (label_names : List String) : Except PyError Reporter := do
  checkTargetLabel config label_names
  checkBinaryLabels config label_names
  return ⟨label_names, config.model_select_metric, config.target_label,
    config.is_memory_efficient⟩

/-- Python `d[k]` on a string-keyed dict where `k` is `Optional[str]`:
`None` is never a key, so it misses; otherwise first-match lookup. -/
def dictLookup {α : Type} (d : List (String × α)) (k : Option String) :
    Option α :=
  match k with
  | none => none
  | some s => d.lookup s

/-- `assert metric is not None; return metric` (src lines 249-250). -/
def assertNotNone (metric : Option Rat) : Except PyError Rat :=
  match metric with
  | some v => .ok v
  | none => .error .assertionError

/-- `ClassificationMetricReporter.get_model_select_metric` (src lines
226-250): dispatch on the configured identifier, fault with `KeyError` on a
missing dictionary key, `ValueError` on an unknown identifier, and
`AssertionError` when the resolved value is `None`. -/
def Reporter.get_model_select_metric (r : Reporter)
    (metrics : ClassificationMetrics) : Except PyError Rat :=
  match r.model_select_metric with
  | .ACCURACY => assertNotNone (some metrics.accuracy)
  | .ROC_AUC => assertNotNone metrics.roc_auc
  | .MCC => assertNotNone metrics.mcc
  | .MACRO_F1 => assertNotNone (some metrics.macro_prf1_metrics.macro_scores.f1)
  | .LABEL_F1 =>
      match dictLookup metrics.macro_prf1_metrics.per_label_scores r.target_label with
      | none => .error .keyError
      | some s => assertNotNone (some s.f1)
  | .LABEL_AVG_PRECISION =>
      match dictLookup metrics.per_label_soft_scores r.target_label with
      | none => .error .keyError
      | some s => assertNotNone s.average_precision
  | .LABEL_ROC_AUC =>
      match dictLookup metrics.per_label_soft_scores r.target_label with
      | none => .error .keyError
      | some s => assertNotNone s.roc_auc
  | .NEGATIVE_LOSS => assertNotNone (some (-metrics.loss))
  | .UNKNOWN _ => .error .valueError

/-- Stated from the spec's words for the extraction claim: the value the
configured metric identifier resolves to in the report, `none` when that
value is absent (a missing dictionary key, a never-computed optional
metric, or an unknown identifier). -/
def resolvedSelectMetric (r : Reporter) (metrics : ClassificationMetrics) :
    Option Rat :=
  match r.model_select_metric with
  | .ACCURACY => some metrics.accuracy
  | .ROC_AUC => metrics.roc_auc
  | .MCC => metrics.mcc
  | .MACRO_F1 => some metrics.macro_prf1_metrics.macro_scores.f1
  | .LABEL_F1 =>
      (dictLookup metrics.macro_prf1_metrics.per_label_scores r.target_label).map
        (fun s => s.f1)
  | .LABEL_AVG_PRECISION =>
      (dictLookup metrics.per_label_soft_scores r.target_label).bind
        (fun s => s.average_precision)
  | .LABEL_ROC_AUC =>
      (dictLookup metrics.per_label_soft_scores r.target_label).bind
        (fun s => s.roc_auc)
  | .NEGATIVE_LOSS => some (-metrics.loss)
  | .UNKNOWN _ => none


lemma PLC.getConf_update (m : PLC) (l' : String) (o : Outcome) (n : Nat)
    (l : String) :
    (m.update l' o n).getConf l =
      if l' = l then (m.getConf l).bump o n else m.getConf l := by
  induction m with
  | nil =>
      by_cases h : l' = l <;> simp [PLC.update, PLC.getConf, h]
  | cons kc rest ih =>
      obtain ⟨k, c⟩ := kc
      by_cases hk : k = l'
      · by_cases hl : k = l
        · simp [PLC.update, PLC.getConf, hk, hl, hk.symm.trans hl]
        · have hne : ¬ l' = l := fun h => hl (hk.trans h)
          simp [PLC.update, PLC.getConf, hk, hl, hne]
      · by_cases hl : k = l
        · have hne : ¬ l' = l := fun h => hk (hl.trans h.symm)
          have hne2 : ¬ l = l' := fun h => hk (hl.trans h)
          simp [PLC.update, PLC.getConf, hk, hl, hne, hne2]
        · simp [PLC.update, PLC.getConf, hk, hl, ih]

lemma topkStep_eq (label_names : List String) (acc : Nat × PLC)
    (p : LabelTopKPrediction) :
    topkStep label_names acc p =
      if isTopkHit label_names p then
        (acc.1 + 1, acc.2.update (expectedName label_names p) .TP 1)
      else
        (acc.1,
          (acc.2.update (expectedName label_names p) .FN 1).update
            (firstPredictedName label_names p) .FP 1) := by
  by_cases hh : expectedName label_names p ∈ predictedNames label_names p <;>
    simp [topkStep, isTopkHit, firstPredictedName, hh]

lemma topkStep_fst (label_names : List String) (acc : Nat × PLC)
    (p : LabelTopKPrediction) :
    (topkStep label_names acc p).1 =
      acc.1 + (if isTopkHit label_names p then 1 else 0) := by
  rw [topkStep_eq]
  cases h : isTopkHit label_names p <;> simp [h]

lemma topkStep_TP (label_names : List String) (acc : Nat × PLC)
    (p : LabelTopKPrediction) (l : String) :
    ((topkStep label_names acc p).2.getConf l).TP =
      (acc.2.getConf l).TP +
        (if isTopkHit label_names p &&
            decide (expectedName label_names p = l) then 1 else 0) := by
  rw [topkStep_eq]
  cases h : isTopkHit label_names p
  · by_cases he : expectedName label_names p = l <;>
      by_cases hf : firstPredictedName label_names p = l <;>
      simp [h, he, hf, PLC.getConf_update, Confusion.bump]
  · by_cases he : expectedName label_names p = l <;>
      simp [h, he, PLC.getConf_update, Confusion.bump]

lemma topkStep_FN (label_names : List String) (acc : Nat × PLC)
    (p : LabelTopKPrediction) (l : String) :
    ((topkStep label_names acc p).2.getConf l).FN =
      (acc.2.getConf l).FN +
        (if !isTopkHit label_names p &&
            decide (expectedName label_names p = l) then 1 else 0) := by
  rw [topkStep_eq]
  cases h : isTopkHit label_names p
  · by_cases he : expectedName label_names p = l <;>
      by_cases hf : firstPredictedName label_names p = l <;>
      simp [h, he, hf, PLC.getConf_update, Confusion.bump]
  · by_cases he : expectedName label_names p = l <;>
      simp [h, he, PLC.getConf_update, Confusion.bump]

lemma topkStep_FP (label_names : List String) (acc : Nat × PLC)
    (p : LabelTopKPrediction) (l : String) :
    ((topkStep label_names acc p).2.getConf l).FP =
      (acc.2.getConf l).FP +
        (if !isTopkHit label_names p &&
            decide (firstPredictedName label_names p = l) then 1 else 0) := by
  rw [topkStep_eq]
  cases h : isTopkHit label_names p
  · by_cases he : expectedName label_names p = l <;>
      by_cases hf : firstPredictedName label_names p = l <;>
      simp [h, he, hf, PLC.getConf_update, Confusion.bump]
  · by_cases he : expectedName label_names p = l <;>
      simp [h, he, PLC.getConf_update, Confusion.bump]

lemma topkFold_fst (label_names : List String)
    (ps : List LabelTopKPrediction) :
    ∀ acc : Nat × PLC,
      (ps.foldl (topkStep label_names) acc).1 =
        acc.1 + ps.countP (isTopkHit label_names) := by
  induction ps with
  | nil => intro acc; simp
  | cons p ps ih =>
      intro acc
      rw [List.foldl_cons, ih, List.countP_cons, topkStep_fst]
      cases h : isTopkHit label_names p <;> simp [h] <;> omega

lemma topkFold_TP (label_names : List String) (l : String)
    (ps : List LabelTopKPrediction) :
    ∀ acc : Nat × PLC,
      ((ps.foldl (topkStep label_names) acc).2.getConf l).TP =
        ((acc.2.getConf l)).TP +
          ps.countP
            (fun p => isTopkHit label_names p &&
              decide (expectedName label_names p = l)) := by
  induction ps with
  | nil => intro acc; simp
  | cons p ps ih =>
      intro acc
      rw [List.foldl_cons, ih, List.countP_cons, topkStep_TP]
      cases h : (isTopkHit label_names p &&
          decide (expectedName label_names p = l)) <;> simp [h] <;> omega

lemma topkFold_FN (label_names : List String) (l : String)
    (ps : List LabelTopKPrediction) :
    ∀ acc : Nat × PLC,
      ((ps.foldl (topkStep label_names) acc).2.getConf l).FN =
        ((acc.2.getConf l)).FN +
          ps.countP
            (fun p => !isTopkHit label_names p &&
              decide (expectedName label_names p = l)) := by
  induction ps with
  | nil => intro acc; simp
  | cons p ps ih =>
      intro acc
      rw [List.foldl_cons, ih, List.countP_cons, topkStep_FN]
      cases h : (!isTopkHit label_names p &&
          decide (expectedName label_names p = l)) <;> simp [h] <;> omega

lemma topkFold_FP (label_names : List String) (l : String)
    (ps : List LabelTopKPrediction) :
    ∀ acc : Nat × PLC,
      ((ps.foldl (topkStep label_names) acc).2.getConf l).FP =
        ((acc.2.getConf l)).FP +
          ps.countP
            (fun p => !isTopkHit label_names p &&
              decide (firstPredictedName label_names p = l)) := by
  induction ps with
  | nil => intro acc; simp
  | cons p ps ih =>
      intro acc
      rw [List.foldl_cons, ih, List.countP_cons, topkStep_FP]
      cases h : (!isTopkHit label_names p &&
          decide (firstPredictedName label_names p = l)) <;> simp [h] <;> omega

/-- C1: in `compute_topk_classification_metrics`, an example counts as
correct exactly when its expected label's name appears anywhere in its
top-k list, and the per-label confusion counts show, per miss, exactly one
FN on the expected label and exactly one FP on the first (highest-scoring)
element of the top-k list — FP entries are attributed only to first
elements, so the other k−1 wrong guesses generate no confusion entries. -/
theorem topk_hit_iff_and_single_attribution (label_names : List String)
    (ps : List LabelTopKPrediction) (loss : Rat)
    (hne : ∀ p ∈ ps, p.topk ≠ []) :
    (compute_topk_classification_metrics ps label_names loss).accuracy =
        safe_division ((ps.countP (isTopkHit label_names) : Nat) : Rat)
          ((ps.length : Nat) : Rat) ∧
    ∀ l : String,
      ((topkCounts label_names ps).2.getConf l).TP =
          ps.countP
            (fun p => isTopkHit label_names p &&
              decide (expectedName label_names p = l)) ∧
      ((topkCounts label_names ps).2.getConf l).FN =
          ps.countP
            (fun p => !isTopkHit label_names p &&
              decide (expectedName label_names p = l)) ∧
      ((topkCounts label_names ps).2.getConf l).FP =
          ps.countP
            (fun p => !isTopkHit label_names p &&
              decide (firstPredictedName label_names p = l)) := by
  have h1 : (topkCounts label_names ps).1 = ps.countP (isTopkHit label_names) := by
    rw [topkCounts, topkFold_fst]
    simp
  refine ⟨?_, fun l => ⟨?_, ?_, ?_⟩⟩
  · show safe_division ((topkCounts label_names ps).1 : Rat)
        ((ps.length : Nat) : Rat) = _
    rw [h1]
  · rw [topkCounts, topkFold_TP]
    simp [PLC.empty, PLC.getConf, Confusion.zero]
  · rw [topkCounts, topkFold_FN]
    simp [PLC.empty, PLC.getConf, Confusion.zero]
  · rw [topkCounts, topkFold_FP]
    simp [PLC.empty, PLC.getConf, Confusion.zero]

/-- Witness for C1: labels a/b/c; one example hits (expected c is the
3rd-highest guess), one misses (expected a, guesses b then c): accuracy is
1/2, the miss yields one FN on a and one FP on b, and the second wrong
guess c receives no FP. -/
theorem topk_hit_iff_and_single_attribution_witness :
    (compute_topk_classification_metrics
        [⟨[], [0, 1, 2], 2⟩, ⟨[], [1, 2], 0⟩] ["a", "b", "c"] 0).accuracy =
      1 / 2 ∧
    ((topkCounts ["a", "b", "c"]
        [⟨[], [0, 1, 2], 2⟩, ⟨[], [1, 2], 0⟩]).2.getConf "a").FN = 1 ∧
    ((topkCounts ["a", "b", "c"]
        [⟨[], [0, 1, 2], 2⟩, ⟨[], [1, 2], 0⟩]).2.getConf "b").FP = 1 ∧
    ((topkCounts ["a", "b", "c"]
        [⟨[], [0, 1, 2], 2⟩, ⟨[], [1, 2], 0⟩]).2.getConf "c").FP = 0 := by
  have h := topk_hit_iff_and_single_attribution ["a", "b", "c"]
    [⟨[], [0, 1, 2], 2⟩, ⟨[], [1, 2], 0⟩] 0 (by decide)
  have hc : List.countP (isTopkHit ["a", "b", "c"])
      [⟨[], [0, 1, 2], 2⟩, ⟨[], [1, 2], 0⟩] = 1 := by decide
  refine ⟨h.1.trans ?_, ?_, ?_, ?_⟩
  case refine_1 =>
    rw [hc]
    norm_num [safe_division]
  · exact ((h.2 "a").2.1).trans (by decide)
  · exact ((h.2 "b").2.2).trans (by decide)
  · exact ((h.2 "c").2.2).trans (by decide)

/-- C6: for every input (and, through `TKState.calculate_metric`, for every
accumulated state including both settings of the memory-efficiency flag),
the report of `compute_topk_classification_metrics` has empty per-label
soft scores, `mcc = None` and `roc_auc = None`. -/
theorem topk_report_soft_metrics_absent
    (predictions : List LabelTopKPrediction) (label_names : List String)
    (loss : Rat) (st : TKState) (names2 : List String) :
    (compute_topk_classification_metrics predictions label_names
        loss).per_label_soft_scores = [] ∧
    (compute_topk_classification_metrics predictions label_names loss).mcc =
      none ∧
    (compute_topk_classification_metrics predictions label_names
        loss).roc_auc = none ∧
    (TKState.calculate_metric st names2).per_label_soft_scores = [] ∧
    (TKState.calculate_metric st names2).mcc = none ∧
    (TKState.calculate_metric st names2).roc_auc = none :=
  ⟨rfl, rfl, rfl, rfl, rfl, rfl⟩

/-- C9: `compute_topk_classification_metrics` on an empty prediction list
is total and its accuracy is `safe_division 0 0 = 0`, not a
divide-by-zero fault. -/
theorem compute_topk_empty_accuracy_zero (label_names : List String)
    (loss : Rat) :
    (compute_topk_classification_metrics [] label_names loss).accuracy =
      safe_division 0 0 ∧
    (compute_topk_classification_metrics [] label_names loss).accuracy = 0 :=
  ⟨rfl, rfl⟩

lemma runBatches_mem_scores {π τ : Type} (bs : List (Batch π τ)) :
    ∀ st : RState π τ, st.is_memory_efficient = true →
      (runBatches st bs).all_scores = st.all_scores ∧
      (runBatches st bs).is_memory_efficient = true := by
  induction bs with
  | nil => intro st h; exact ⟨rfl, h⟩
  | cons b bs ih =>
      intro st h
      have hflag :
          (ClassificationMetricReporter.add_batch_stats st b.n_batches b.preds
            b.targets b.scores b.loss b.m_input).is_memory_efficient = true := h
      have hsc :
          (ClassificationMetricReporter.add_batch_stats st b.n_batches b.preds
            b.targets b.scores b.loss b.m_input).all_scores = st.all_scores := by
        simp [ClassificationMetricReporter.add_batch_stats, h]
      obtain ⟨h1, h2⟩ := ih _ hflag
      exact ⟨h1.trans hsc, h2⟩

lemma runBatches_len {π τ : Type} (bs : List (Batch π τ)) :
    ∀ st : RState π τ, st.all_preds.length = st.all_targets.length →
      (∀ b ∈ bs, b.preds.length = b.targets.length) →
      (runBatches st bs).all_preds.length =
        (runBatches st bs).all_targets.length := by
  induction bs with
  | nil => intro st h _; exact h
  | cons b bs ih =>
      intro st h hb
      refine ih _ ?_ (fun b' hb' => hb b' (List.mem_cons_of_mem _ hb'))
      show (aggregate_data st.all_preds b.preds).length =
        (aggregate_data st.all_targets b.targets).length
      simp [aggregate_data, h, hb b (List.mem_cons_self _ _)]

lemma zipLongest3_nil_left {α β γ : Type} :
    ∀ (b : List β) (c : List γ), b.length = c.length →
      zipLongest3 ([] : List α) b c =
        (b.zip c).map (fun x => ((none : Option α), some x.1, some x.2)) := by
  intro b
  induction b with
  | nil =>
      intro c hc
      cases c with
      | nil => simp [zipLongest3]
      | cons y cs => simp at hc
  | cons x bs ih =>
      intro c hc
      cases c with
      | nil => simp at hc
      | cons y cs => simp [zipLongest3, ih cs (by simpa using hc)]

/-- C3: over a whole pass starting from a reset state with
`is_memory_efficient = True`, `add_batch_stats` never appends to the score
buffer (it stays empty), and the `LabelPrediction` input built by
`calculate_metric`'s padding zip still has one entry per accumulated
prediction/target pair, each with the empty score list filled in — rather
than erroring on the length mismatch. -/
theorem mem_efficient_scores_stay_empty (bs : List (Batch Nat Nat))
    (halign : ∀ b ∈ bs, b.preds.length = b.targets.length) :
    (runBatches (RState.init Nat Nat true) bs).all_scores = [] ∧
    calculateMetricInput (runBatches (RState.init Nat Nat true) bs) =
      ((runBatches (RState.init Nat Nat true) bs).all_preds.zip
          (runBatches (RState.init Nat Nat true) bs).all_targets).map
        (fun x => ⟨[], some x.1, some x.2⟩) := by
  have hs := runBatches_mem_scores bs (RState.init Nat Nat true) rfl
  have hsc : (runBatches (RState.init Nat Nat true) bs).all_scores = [] :=
    hs.1.trans rfl
  have hlen := runBatches_len bs (RState.init Nat Nat true) rfl halign
  refine ⟨hsc, ?_⟩
  rw [calculateMetricInput, hsc, zipLongest3_nil_left _ _ hlen, List.map_map]
  rfl

/-- Witness for C3: one batch of two examples in memory-efficient mode with
non-empty score rows offered: the score buffer stays empty and the metric
input pairs every prediction with its target, scores filled as `[]`. -/
theorem mem_efficient_scores_stay_empty_witness :
    (runBatches (RState.init Nat Nat true)
        [⟨1, [0, 1], [1, 0], [[1, 2], [3, 4]], some 1,
          .tensors [[1, 2], [3, 4]]⟩]).all_scores = [] ∧
    calculateMetricInput
        (runBatches (RState.init Nat Nat true)
          [⟨1, [0, 1], [1, 0], [[1, 2], [3, 4]], some 1,
            .tensors [[1, 2], [3, 4]]⟩]) =
      [⟨[], some 0, some 1⟩, ⟨[], some 1, some 0⟩] := by
  have h := mem_efficient_scores_stay_empty
    [⟨1, [0, 1], [1, 0], [[1, 2], [3, 4]], some 1, .tensors [[1, 2], [3, 4]]⟩]
    (by decide)
  exact ⟨h.1, h.2.trans (by decide)⟩

lemma zip3_length {α β γ : Type} :
    ∀ (as : List α) (bs : List β) (cs : List γ),
      (zip3 as bs cs).length =
        min as.length (min bs.length cs.length) := by
  intro as
  induction as with
  | nil => intro bs cs; simp [zip3]
  | cons a as ih =>
      intro bs cs
      cases bs with
      | nil => simp [zip3]
      | cons b bs =>
          cases cs with
          | nil => simp [zip3]
          | cons c cs =>
              simp only [zip3, List.length_cons, ih]
              omega

lemma zip3_proj {α β γ : Type} :
    ∀ (as : List α) (bs : List β) (cs : List γ),
      as.length = bs.length → bs.length = cs.length →
      (zip3 as bs cs).map (fun x => (x.2.1, x.2.2)) = bs.zip cs := by
  intro as
  induction as with
  | nil =>
      intro bs cs h1 h2
      cases bs with
      | nil =>
          cases cs with
          | nil => rfl
          | cons c cs => simp at h2
      | cons b bs => simp at h1
  | cons a as ih =>
      intro bs cs h1 h2
      cases bs with
      | nil => simp at h1
      | cons b bs =>
          cases cs with
          | nil => simp at h2
          | cons c cs =>
              simp [zip3,
                ih bs cs (by simpa using h1) (by simpa using h2)]

/-- C4: the multi-label `calculate_metric` input is an exact zip — its
length is the minimum of the three buffer lengths (no padding), and when
the three lengths match exactly, every accumulated prediction/target pair
appears, in order, in the resulting input list. -/
theorem multilabel_input_exact_zip (st : RState (List Nat) (List Int)) :
    (multiLabelCalculateMetricInput st).length =
      min st.all_scores.length
        (min st.all_preds.length st.all_targets.length) ∧
    (st.all_scores.length = st.all_preds.length →
      st.all_preds.length = st.all_targets.length →
      (multiLabelCalculateMetricInput st).map (fun p => (p.pred, p.expect)) =
        st.all_preds.zip st.all_targets) := by
  constructor
  · rw [multiLabelCalculateMetricInput, List.length_map, zip3_length]
  · intro h1 h2
    rw [multiLabelCalculateMetricInput, List.map_map]
    exact zip3_proj st.all_scores st.all_preds st.all_targets h1 h2

/-- Witness for C4: three aligned buffers of length two produce an input of
length two whose prediction/target projections are exactly the accumulated
pairs. -/
theorem multilabel_input_exact_zip_witness :
    (multiLabelCalculateMetricInput
        ⟨false, 1, [[1], [0]], [[0], [-1]], [[1, 2], [3, 4]], [], []⟩).length =
      2 ∧
    (multiLabelCalculateMetricInput
        ⟨false, 1, [[1], [0]], [[0], [-1]], [[1, 2], [3, 4]], [], []⟩).map
        (fun p => (p.pred, p.expect)) =
      [([1], [0]), ([0], [-1])] := by
  have h := multilabel_input_exact_zip
    ⟨false, 1, [[1], [0]], [[0], [-1]], [[1, 2], [3, 4]], [], []⟩
  exact ⟨h.1.trans (by decide), (h.2 rfl rfl).trans (by decide)⟩

/-- C5 (code bug): for a generator model input whose first tensor has 5
rows, `add_batch_stats` appends 1 — the length of the 1-tuple of iterators
returned by `tee(m_input, 1)` — to the batch-size trace, not the batch
size 5 that the tuple branch (and the code's own comments) record. -/
theorem batch_size_generator_appends_one :
    (ClassificationMetricReporter.add_batch_stats (RState.init Nat Nat false)
        1 [0, 1, 2, 3, 4] [0, 1, 2, 3, 4] [] none
        (.generator [[1, 1, 1, 1, 1]])).batch_size = [1] ∧
    (ClassificationMetricReporter.add_batch_stats (RState.init Nat Nat false)
        1 [0, 1, 2, 3, 4] [0, 1, 2, 3, 4] [] none
        (.tensors [[1, 1, 1, 1, 1]])).batch_size = [5] ∧
    (1 : Nat) ≠ 5 :=
  ⟨rfl, rfl, by decide⟩

/-- C10: every `TopKClassificationMetricReporter.add_batch_stats` call
appends exactly one top-k index list per example row of the batch's score
matrix to `all_topk_preds`, for any state (hence for either setting of the
memory-efficiency flag); in memory-efficient mode the raw score buffer is
nevertheless left untouched. -/
theorem topk_preds_appended_regardless (st : TKState) (n : Nat)
    (preds targets : List Nat) (scores : List (List Rat)) (loss : Option Rat)
    (m_input : ModelInput) :
    (TKState.add_batch_stats st n preds targets scores loss
        m_input).all_topk_preds =
      st.all_topk_preds ++ scores.map (torchTopkRow st.topk) ∧
    (TKState.add_batch_stats st n preds targets scores loss
        m_input).all_topk_preds.length =
      st.all_topk_preds.length + scores.length ∧
    (st.base.is_memory_efficient = true →
      (TKState.add_batch_stats st n preds targets scores loss
          m_input).base.all_scores = st.base.all_scores) := by
  refine ⟨rfl, ?_, ?_⟩
  · show (aggregate_data st.all_topk_preds
        (scores.map (torchTopkRow st.topk))).length = _
    simp [aggregate_data]
  · intro h
    show (if st.base.is_memory_efficient then st.base.all_scores
        else aggregate_data st.base.all_scores scores) = st.base.all_scores
    simp [h]

/-- Witness for C10: a memory-efficient top-k state with k = 2 ingesting a
two-example batch appends the two top-2 index lists while the score buffer
stays empty. -/
theorem topk_preds_appended_regardless_witness :
    (TKState.add_batch_stats ⟨RState.init Nat Nat true, [], 2⟩ 1 [0, 1]
        [2, 0] [[1, 2, 3], [3, 2, 1]] none
        (.tensors [[1, 2, 3], [3, 2, 1]])).all_topk_preds =
      [[2, 1], [0, 1]] ∧
    (TKState.add_batch_stats ⟨RState.init Nat Nat true, [], 2⟩ 1 [0, 1]
        [2, 0] [[1, 2, 3], [3, 2, 1]] none
        (.tensors [[1, 2, 3], [3, 2, 1]])).base.all_scores = [] := by
  have h := topk_preds_appended_regardless ⟨RState.init Nat Nat true, [], 2⟩
    1 [0, 1] [2, 0] [[1, 2, 3], [3, 2, 1]] none
    (.tensors [[1, 2, 3], [3, 2, 1]])
  exact ⟨h.1.trans (by decide), h.2.2 rfl⟩

/-- C2: `from_config_and_label_names` fails (assertion) at configuration
time when a per-label selection metric (`label_f1`, `label_avg_precision`,
`label_roc_auc`) is configured without a target label present in the label
catalogue, and when `roc_auc`/`mcc` is configured with a catalogue whose
size is not exactly 2; with a valid configuration it constructs the
reporter. -/
theorem config_time_validation (config : Config) (label_names : List String) :
    ((config.model_select_metric = .LABEL_F1 ∨
        config.model_select_metric = .LABEL_AVG_PRECISION ∨
        config.model_select_metric = .LABEL_ROC_AUC) →
      (¬ ∃ t, config.target_label = some t ∧ t ∈ label_names) →
      from_config_and_label_names config label_names =
        .error .assertionError) ∧
    ((config.model_select_metric = .ROC_AUC ∨
        config.model_select_metric = .MCC) →
      label_names.length ≠ 2 →
      from_config_and_label_names config label_names =
        .error .assertionError) ∧
    (((config.model_select_metric = .LABEL_F1 ∨
        config.model_select_metric = .LABEL_AVG_PRECISION ∨
        config.model_select_metric = .LABEL_ROC_AUC) →
      ∃ t, config.target_label = some t ∧ t ∈ label_names) →
      ((config.model_select_metric = .ROC_AUC ∨
        config.model_select_metric = .MCC) → label_names.length = 2) →
      from_config_and_label_names config label_names =
        .ok ⟨label_names, config.model_select_metric, config.target_label,
          config.is_memory_efficient⟩) := by
  refine ⟨?_, ?_, ?_⟩
  · intro hper hmiss
    have hct : checkTargetLabel config label_names = .error .assertionError := by
      rw [checkTargetLabel, if_pos hper]
      cases ht : config.target_label with
      | none => rfl
      | some t =>
          have hm : t ∉ label_names := fun hm => hmiss ⟨t, ht, hm⟩
          simp [hm]
    unfold from_config_and_label_names
    rw [hct]
    rfl
  · intro hbin hne
    have hct : checkTargetLabel config label_names = .ok () := by
      rcases hbin with h | h <;> rw [checkTargetLabel, if_neg (by simp [h])]
    have hcb : checkBinaryLabels config label_names =
        .error .assertionError := by
      rw [checkBinaryLabels, if_pos hbin, if_neg hne]
    unfold from_config_and_label_names
    rw [hct, hcb]
    rfl
  · intro hp hb
    have hct : checkTargetLabel config label_names = .ok () := by
      rw [checkTargetLabel]
      by_cases hper : config.model_select_metric = .LABEL_F1 ∨
          config.model_select_metric = .LABEL_AVG_PRECISION ∨
          config.model_select_metric = .LABEL_ROC_AUC
      · obtain ⟨t, ht, hm⟩ := hp hper
        rw [if_pos hper, ht]
        simp [hm]
      · rw [if_neg hper]
    have hcb : checkBinaryLabels config label_names = .ok () := by
      rw [checkBinaryLabels]
      by_cases hbin : config.model_select_metric = .ROC_AUC ∨
          config.model_select_metric = .MCC
      · rw [if_pos hbin, if_pos (hb hbin)]
      · rw [if_neg hbin]
    unfold from_config_and_label_names
    rw [hct, hcb]
    rfl

/-- Witness for C2: `label_f1` with no target label fails, `roc_auc` with
three labels fails, and `label_f1` with target label a present in
the two-label catalogue constructs the reporter. -/
theorem config_time_validation_witness :
    from_config_and_label_names ⟨.LABEL_F1, none, false⟩ ["a", "b"] =
      .error .assertionError ∧
    from_config_and_label_names ⟨.ROC_AUC, none, false⟩ ["a", "b", "c"] =
      .error .assertionError ∧
    from_config_and_label_names ⟨.LABEL_F1, some "a", false⟩ ["a", "b"] =
      .ok ⟨["a", "b"], .LABEL_F1, some "a", false⟩ := by
  refine ⟨?_, ?_, ?_⟩
  · exact (config_time_validation ⟨.LABEL_F1, none, false⟩ ["a", "b"]).1
      (Or.inl rfl) (by rintro ⟨t, ht, _⟩; exact Option.noConfusion ht)
  · exact (config_time_validation ⟨.ROC_AUC, none, false⟩ ["a", "b", "c"]).2.1
      (Or.inl rfl) (by decide)
  · exact (config_time_validation ⟨.LABEL_F1, some "a", false⟩ ["a", "b"]).2.2
      (fun _ => ⟨"a", rfl, by simp⟩) (by decide)

/-- C7: `get_model_select_metric` returns exactly the value the configured
identifier resolves to in the report, and faults (`Except.error`: a failed
assertion, a missing dictionary key, or the unknown-identifier
`ValueError`) precisely when that resolved value is absent — the fault is
an exception, not a recoverable return value. -/
theorem select_metric_extraction_total (r : Reporter)
    (m : ClassificationMetrics) :
    (r.get_model_select_metric m).toOption = resolvedSelectMetric r m := by
  cases hms : r.model_select_metric with
  | ACCURACY =>
      simp [Reporter.get_model_select_metric, resolvedSelectMetric,
        assertNotNone, Except.toOption, hms]
  | ROC_AUC =>
      cases h : m.roc_auc <;>
        simp [Reporter.get_model_select_metric, resolvedSelectMetric,
          assertNotNone, Except.toOption, hms, h]
  | MCC =>
      cases h : m.mcc <;>
        simp [Reporter.get_model_select_metric, resolvedSelectMetric,
          assertNotNone, Except.toOption, hms, h]
  | MACRO_F1 =>
      simp [Reporter.get_model_select_metric, resolvedSelectMetric,
        assertNotNone, Except.toOption, hms]
  | LABEL_F1 =>
      cases h : dictLookup m.macro_prf1_metrics.per_label_scores
          r.target_label <;>
        simp [Reporter.get_model_select_metric, resolvedSelectMetric,
          assertNotNone, Except.toOption, hms, h]
  | LABEL_AVG_PRECISION =>
      cases h : dictLookup m.per_label_soft_scores r.target_label with
      | none =>
          simp [Reporter.get_model_select_metric, resolvedSelectMetric,
            assertNotNone, Except.toOption, hms, h]
      | some s =>
          cases h2 : s.average_precision <;>
            simp [Reporter.get_model_select_metric, resolvedSelectMetric,
              assertNotNone, Except.toOption, hms, h, h2]
  | LABEL_ROC_AUC =>
      cases h : dictLookup m.per_label_soft_scores r.target_label with
      | none =>
          simp [Reporter.get_model_select_metric, resolvedSelectMetric,
            assertNotNone, Except.toOption, hms, h]
      | some s =>
          cases h2 : s.roc_auc <;>
            simp [Reporter.get_model_select_metric, resolvedSelectMetric,
              assertNotNone, Except.toOption, hms, h, h2]
  | NEGATIVE_LOSS =>
      simp [Reporter.get_model_select_metric, resolvedSelectMetric,
        assertNotNone, Except.toOption, hms]
  | UNKNOWN s =>
      simp [Reporter.get_model_select_metric, resolvedSelectMetric,
        Except.toOption, hms]

/-- Counterexample for C8: a non-member model-selection identifier passes
`from_config_and_label_names` without any error — the configuration step
succeeds — and only `get_model_select_metric` raises the `ValueError`, so
the unknown-identifier error is not surfaced at configuration time as the
claim states. -/
theorem unknown_metric_config_passes_cex :
    from_config_and_label_names ⟨.UNKNOWN "bogus", none, false⟩ ["a", "b"] =
      .ok ⟨["a", "b"], .UNKNOWN "bogus", none, false⟩ ∧
    Reporter.get_model_select_metric
        ⟨["a", "b"], .UNKNOWN "bogus", none, false⟩
        ⟨1, ⟨[], ⟨0, 0, 0⟩⟩, [], none, none, 0⟩ = .error .valueError :=
  ⟨rfl, rfl⟩

/-- C8 (amended): an unknown model-selection metric identifier is not
checked by `from_config_and_label_names` — construction succeeds for any
label catalogue — and the fatal `ValueError` is raised only at extraction
time, when `get_model_select_metric` is called. -/
theorem unknown_metric_defers_to_extraction (config : Config)
    (label_names : List String) (s : String)
    (h : config.model_select_metric = .UNKNOWN s) :
    from_config_and_label_names config label_names =
      .ok ⟨label_names, config.model_select_metric, config.target_label,
        config.is_memory_efficient⟩ ∧
    ∀ m : ClassificationMetrics,
      Reporter.get_model_select_metric
        ⟨label_names, config.model_select_metric, config.target_label,
          config.is_memory_efficient⟩ m = .error .valueError := by
  constructor
  · have hct : checkTargetLabel config label_names = .ok () := by
      rw [checkTargetLabel, if_neg (by simp [h])]
    have hcb : checkBinaryLabels config label_names = .ok () := by
      rw [checkBinaryLabels, if_neg (by simp [h])]
    unfold from_config_and_label_names
    rw [hct, hcb]
    rfl
  · intro m
    simp [Reporter.get_model_select_metric, h]

/-- Witness for C8's amended claim at a concrete unknown identifier. -/
theorem unknown_metric_defers_to_extraction_witness :
    from_config_and_label_names ⟨.UNKNOWN "x", some "a", true⟩ ["a"] =
      .ok ⟨["a"], .UNKNOWN "x", some "a", true⟩ ∧
    Reporter.get_model_select_metric ⟨["a"], .UNKNOWN "x", some "a", true⟩
      ⟨0, ⟨[], ⟨0, 0, 0⟩⟩, [], none, none, 0⟩ = .error .valueError := by
  have h := unknown_metric_defers_to_extraction ⟨.UNKNOWN "x", some "a", true⟩
    ["a"] "x" rfl
  exact ⟨h.1, h.2 _⟩
